import Mathlib

/-!
# Verification of the elephantasm-py client SDK core

Shallow embedding of the event-type / request / response contract layer of
the `elephantasm` Python SDK (files `elephantasm/types.py`,
`elephantasm/exceptions.py`, `elephantasm/client.py`), together with
theorems settling the specification claims about it.

Modelling conventions:
* Python floats are modelled as `ℚ` (only order comparisons and identity
  transport occur in the embedded code; NaN/infinity never arise in it).
* JSON-decoded Python values are modelled by the inductive `Json`;
  a Python `None` obtained from JSON `null` is `Json.null`.
* A response body that is not parseable JSON is `Option.none` at the
  `HttpResponse.jsonBody` field (Python `response.json()` raising).
* Datetime values are carried as their ISO string form; the embedded code
  never inspects them, so their internal structure is left opaque.
* Fallible Python code (raising) is modelled with `Except PyError`.
-/

namespace Elephantasm

/-- JSON-decoded Python values (`Any` after `response.json()`). -/
inductive Json where
  | null : Json
  | bool : Bool → Json
  | num : ℚ → Json
  | str : String → Json
  | arr : List Json → Json
  | obj : List (String × Json) → Json
deriving Repr

/-- Python truthiness of a JSON-decoded value (`if identity_data:`):
`None`, `False`, `0`, `""`, `[]`, `{}` are falsy. -/
def Json.truthy : Json → Bool
  | .null => false
  | .bool b => b
  | .num q => q ≠ 0
  | .str s => !s.isEmpty
  | .arr xs => !xs.isEmpty
  | .obj kvs => !kvs.isEmpty

mutual

/-- Python `repr()` of a JSON-decoded value, used by `str()` on containers.
The exact numeric formatting is irrelevant to every embedded observation;
string escaping inside `repr` is not reproduced. -/
def Json.pyRepr : Json → String
  | .null => "None"
  | .bool b => if b then "True" else "False"
  | .num q => toString q
  | .str s => "\x27" ++ s ++ "\x27"
  | .arr xs => "[" ++ String.intercalate ", " (Json.pyReprList xs) ++ "]"
  | .obj kvs =>
      "\x7b" ++ String.intercalate ", " (Json.pyReprKVList kvs) ++ "\x7d"

/-- `repr()` of each element of a Python list. -/
def Json.pyReprList : List Json → List String
  | [] => []
  | x :: xs => x.pyRepr :: Json.pyReprList xs

/-- `repr()` of each `key: value` entry of a Python dict. -/
def Json.pyReprKVList : List (String × Json) → List String
  | [] => []
  | (k, v) :: kvs => ("\x27" ++ k ++ "\x27: " ++ v.pyRepr) :: Json.pyReprKVList kvs

end

/-- Python `str()` of a JSON-decoded value (`str(detail)` in the 422 branch). -/
def Json.pyStr : Json → String
  | .str s => s
  | v => v.pyRepr

/-- Error kinds of the exception hierarchy of `elephantasm/exceptions.py`:
the base `ElephantasmError` class and its five subclasses. -/
inductive ErrKind where
  | base
  | authentication
  | notFound
  | rateLimit
  | validation
  | server
deriving Repr, DecidableEq

/-- An `ElephantasmError` instance: the subclass, the `message` attribute
(kept as the Python value that was passed, hence `Json`), and the
`status_code` attribute. -/
structure ElephantasmErr where
  kind : ErrKind
  message : Json
  status_code : Option Nat
deriving Repr

/-- `AuthenticationError(message)` — fixes `status_code=401`. -/
def AuthenticationError (message : Json) : ElephantasmErr :=
  ⟨.authentication, message, some 401⟩

/-- `NotFoundError(message)` — fixes `status_code=404`. -/
def NotFoundError (message : Json) : ElephantasmErr :=
  ⟨.notFound, message, some 404⟩

/-- `RateLimitError(message)` — fixes `status_code=429`. -/
def RateLimitError (message : Json) : ElephantasmErr :=
  ⟨.rateLimit, message, some 429⟩

/-- `ValidationError(message)` — fixes `status_code=422`. -/
def ValidationError (message : Json) : ElephantasmErr :=
  ⟨.validation, message, some 422⟩

/-- `ServerError(message)` — fixes `status_code=500` whatever 5xx status
was actually observed. -/
def ServerError (message : Json) : ElephantasmErr :=
  ⟨.server, message, some 500⟩

/-- `ElephantasmError(message, status_code=status)` — the base class,
carrying the observed status. -/
def ElephantasmError (message : Json) (status_code : Option Nat) : ElephantasmErr :=
  ⟨.base, message, status_code⟩

/-- Every exception the embedded client code can raise:
`ElephantasmError` and subclasses, `ValueError` (local configuration /
UUID failures), pydantic validation errors at model construction,
`TypeError` (e.g. `**` applied to a non-mapping), and the JSON decode
error `response.json()` raises on an unparseable success body. -/
inductive PyError where
  | elephantasm : ElephantasmErr → PyError
  | valueError : String → PyError
  | pydantic : String → PyError
  | typeError : PyError
  | jsonDecode : PyError
deriving Repr

/-- A completed HTTP response as the client observes it:
`status_code`, the parse of the body (`none` when the body is not valid
JSON, i.e. `response.json()` raises), and the raw body `text`. -/
structure HttpResponse where
  status : Nat
  jsonBody : Option Json
  text : String
deriving Repr

/-- httpx `response.is_success`: status in [200, 300). -/
def HttpResponse.is_success (r : HttpResponse) : Bool :=
  200 ≤ r.status && r.status < 300

/-- The `detail = response.json().get("detail", response.text)` /
`except: detail = response.text` step of `_handle_response`: if the body
parses to a JSON object, `.get` returns the `"detail"` value or falls back
to the raw text; any raising path (unparseable body, `.get` on a non-dict)
is caught and also falls back to the raw text. -/
def responseDetail (r : HttpResponse) : Json :=
  match r.jsonBody with
  | some (.obj kvs) =>
      match kvs.lookup "detail" with
      | some v => v
      | none => .str r.text
  | _ => .str r.text

/-- `Elephantasm._handle_response`: on success return the parsed body
(JSON `null` stays `None`); otherwise extract `detail` and dispatch on
the status code to the typed error taxonomy.  A successful response whose
body is not parseable JSON makes `response.json()` raise a JSON decode
error (not an `ElephantasmError`). -/
def handle_response (r : HttpResponse) : Except PyError Json :=
  if r.is_success then
    match r.jsonBody with
    | some j => .ok j
    | none => .error .jsonDecode
  else
    let detail := responseDetail r
    if r.status == 401 then .error (.elephantasm (AuthenticationError detail))
    else if r.status == 404 then .error (.elephantasm (NotFoundError detail))
    else if r.status == 422 then .error (.elephantasm (ValidationError (.str detail.pyStr)))
    else if r.status == 429 then .error (.elephantasm (RateLimitError detail))
    else if 500 ≤ r.status then .error (.elephantasm (ServerError detail))
    else .error (.elephantasm (ElephantasmError detail (some r.status)))

/-- The `EventType` string enum of `elephantasm/types.py`. -/
inductive EventType where
  | MESSAGE_IN
  | MESSAGE_OUT
  | TOOL_CALL
  | TOOL_RESULT
  | SYSTEM
deriving Repr, DecidableEq

/-- The `.value` of each `EventType` member: the dotted wire string. -/
def EventType.value : EventType → String
  | .MESSAGE_IN => "message.in"
  | .MESSAGE_OUT => "message.out"
  | .TOOL_CALL => "tool.call"
  | .TOOL_RESULT => "tool.result"
  | .SYSTEM => "system"

/-- A Python UUID object, canonicalized to its 32 lowercase hex digits. -/
structure UUID where
  hex : String
deriving Repr, DecidableEq

/-- Hexadecimal digit test (`int(hex, 16)` accepts both cases). -/
def isHexChar (c : Char) : Bool :=
  c.isDigit || (97 ≤ c.toNat && c.toNat ≤ 102) || (65 ≤ c.toNat && c.toNat ≤ 70)

/-- ASCII lowercasing of one character (UUID hex digits are ASCII). -/
def charToLower (c : Char) : Char :=
  if 65 ≤ c.toNat && c.toNat ≤ 90 then Char.ofNat (c.toNat + 32) else c

/-- Left-to-right non-overlapping replacement of `pat` by `repl`, the
semantics of Python `str.replace`; the fuel is the input length. -/
def pyReplaceAux (pat repl : List Char) : Nat → List Char → List Char
  | 0, s => s
  | _, [] => []
  | fuel + 1, c :: rest =>
      if pat.isPrefixOf (c :: rest) then
        repl ++ pyReplaceAux pat repl fuel ((c :: rest).drop pat.length)
      else
        c :: pyReplaceAux pat repl fuel rest

/-- Python `s.replace(pat, repl)` for non-empty `pat`. -/
def pyReplace (s pat repl : String) : String :=
  if s.data.isEmpty || pat.data.isEmpty then s
  else String.mk (pyReplaceAux pat.data repl.data s.data.length s.data)

/-- Python `hex.strip("\x7b\x7d")`: remove all leading and trailing brace
characters. -/
def pyStripBraces (s : String) : String :=
  let isBrace := fun c : Char => c == '\x7b' || c == '\x7d'
  String.mk (((s.data.dropWhile isBrace).reverse.dropWhile isBrace).reverse)

/-- CPython `uuid.UUID(hex)`: drop `urn:`/`uuid:` prefixes, strip braces,
drop dashes, then require exactly 32 hex digits; `none` models the
`ValueError` raised otherwise. -/
def parseUUID (s : String) : Option UUID :=
  let h := pyReplace (pyReplace s "urn:" "") "uuid:" ""
  let h := pyReplace (pyStripBraces h) "-" ""
  if h.data.length == 32 && h.data.all isHexChar then
    some ⟨String.mk (h.data.map charToLower)⟩
  else none

/-- Python `str(uuid)`: the canonical lowercase 8-4-4-4-12 dashed form. -/
def UUID.toDashed (u : UUID) : String :=
  let cs := u.hex.data
  String.mk (cs.take 8) ++ "-" ++ String.mk ((cs.drop 8).take 4) ++ "-" ++
    String.mk ((cs.drop 12).take 4) ++ "-" ++ String.mk ((cs.drop 16).take 4) ++
    "-" ++ String.mk (cs.drop 20)

/-- The `EventCreate` pydantic model of `elephantasm/types.py`: its fields,
in declaration order.  Its only constrained field is
`importance_score: float | None = Field(default=None, ge=0.0, le=1.0)`;
`event_type` is a plain unconstrained `str`. -/
structure EventCreate where
  anima_id : UUID
  event_type : String
  content : String
  role : Option String
  author : Option String
  summary : Option String
  occurred_at : Option String
  session_id : Option String
  meta : List (String × Json)
  source_uri : Option String
  dedupe_key : Option String
  importance_score : Option ℚ
deriving Repr

/-- Constructing `EventCreate(...)`: pydantic runs the field constraints,
i.e. the `ge=0.0, le=1.0` bound on `importance_score`; every other field
of the call is already of its declared type. -/
def EventCreate.build (anima_id : UUID) (event_type content : String)
    (role author summary occurred_at session_id : Option String)
    (meta : List (String × Json)) (source_uri dedupe_key : Option String)
    (importance_score : Option ℚ) : Except PyError EventCreate :=
  match importance_score with
  | some q =>
      if 0 ≤ q ∧ q ≤ 1 then
        .ok ⟨anima_id, event_type, content, role, author, summary, occurred_at,
             session_id, meta, source_uri, dedupe_key, some q⟩
      else
        .error (.pydantic "importance_score: input should be in the interval [0, 1]")
  | none =>
      .ok ⟨anima_id, event_type, content, role, author, summary, occurred_at,
           session_id, meta, source_uri, dedupe_key, none⟩

/-- Serialize an optional string field under `exclude_none=True`. -/
def optDump (k : String) : Option String → List (String × Json)
  | some s => [(k, .str s)]
  | none => []

/-- `EventCreate.model_dump(mode="json", exclude_none=True)`: fields in
declaration order, `None`-valued fields omitted, UUIDs as dashed strings,
datetimes already carried as their ISO serialization. -/
def EventCreate.model_dump_json (ec : EventCreate) : List (String × Json) :=
  [("anima_id", .str ec.anima_id.toDashed),
   ("event_type", .str ec.event_type),
   ("content", .str ec.content)]
  ++ optDump "role" ec.role
  ++ optDump "author" ec.author
  ++ optDump "summary" ec.summary
  ++ optDump "occurred_at" ec.occurred_at
  ++ optDump "session_id" ec.session_id
  ++ [("meta", .obj ec.meta)]
  ++ optDump "source_uri" ec.source_uri
  ++ optDump "dedupe_key" ec.dedupe_key
  ++ (match ec.importance_score with
      | some q => [("importance_score", .num q)]
      | none => [])

/-! Pydantic field extraction from a decoded JSON object.  Lax-mode
numeric-string and bool-to-number coercions are never exercised by the
embedded call sites and are not modelled; a value of the declared type is
accepted, anything else is a validation error. -/

/-- Required `str` field. -/
def fieldReqStr (kvs : List (String × Json)) (k : String) : Except PyError String :=
  match kvs.lookup k with
  | some (.str s) => .ok s
  | _ => .error (.pydantic (k ++ ": a valid string is required"))

/-- Optional `str | None = None` field. -/
def fieldOptStr (kvs : List (String × Json)) (k : String) : Except PyError (Option String) :=
  match kvs.lookup k with
  | none => .ok none
  | some .null => .ok none
  | some (.str s) => .ok (some s)
  | some _ => .error (.pydantic (k ++ ": a valid string is required"))

/-- Required `float` field. -/
def fieldReqNum (kvs : List (String × Json)) (k : String) : Except PyError ℚ :=
  match kvs.lookup k with
  | some (.num q) => .ok q
  | _ => .error (.pydantic (k ++ ": a valid number is required"))

/-- Optional `float | None = None` field. -/
def fieldOptNum (kvs : List (String × Json)) (k : String) : Except PyError (Option ℚ) :=
  match kvs.lookup k with
  | none => .ok none
  | some .null => .ok none
  | some (.num q) => .ok (some q)
  | some _ => .error (.pydantic (k ++ ": a valid number is required"))

/-- Required `UUID` field, supplied as a string on the wire. -/
def fieldReqUUID (kvs : List (String × Json)) (k : String) : Except PyError UUID :=
  match kvs.lookup k with
  | some (.str s) =>
      match parseUUID s with
      | some u => .ok u
      | none => .error (.pydantic (k ++ ": a valid UUID is required"))
  | _ => .error (.pydantic (k ++ ": a valid UUID is required"))

/-- `int` field with a default. -/
def fieldIntD (kvs : List (String × Json)) (k : String) (d : ℤ) : Except PyError ℤ :=
  match kvs.lookup k with
  | none => .ok d
  | some (.num q) =>
      if q.den = 1 then .ok q.num
      else .error (.pydantic (k ++ ": a valid integer is required"))
  | some _ => .error (.pydantic (k ++ ": a valid integer is required"))

/-- `bool` field with a default. -/
def fieldBoolD (kvs : List (String × Json)) (k : String) (d : Bool) : Except PyError Bool :=
  match kvs.lookup k with
  | none => .ok d
  | some (.bool b) => .ok b
  | some _ => .error (.pydantic (k ++ ": a valid boolean is required"))

/-- `dict[str, Any]` field with default `{}`. -/
def fieldObjD (kvs : List (String × Json)) (k : String) :
    Except PyError (List (String × Json)) :=
  match kvs.lookup k with
  | none => .ok []
  | some (.obj o) => .ok o
  | some _ => .error (.pydantic (k ++ ": a valid dictionary is required"))

/-- Optional `dict[str, Any] | None = None` field. -/
def fieldOptObj (kvs : List (String × Json)) (k : String) :
    Except PyError (Option (List (String × Json))) :=
  match kvs.lookup k with
  | none => .ok none
  | some .null => .ok none
  | some (.obj o) => .ok (some o)
  | some _ => .error (.pydantic (k ++ ": a valid dictionary is required"))

/-- Required `datetime` field: carried as its ISO string serialization; the
ISO-format validation pydantic performs on the text is abstracted (the
embedded code never inspects datetime values). -/
def fieldReqDatetime (kvs : List (String × Json)) (k : String) : Except PyError String :=
  match kvs.lookup k with
  | some (.str s) => .ok s
  | _ => .error (.pydantic (k ++ ": a valid datetime is required"))

/-- `dict[str, float]` field with default `{}` (`breakdown`). -/
def fieldNumDictD (kvs : List (String × Json)) (k : String) :
    Except PyError (List (String × ℚ)) :=
  match kvs.lookup k with
  | none => .ok []
  | some (.obj o) =>
      o.mapM fun kv =>
        match kv.2 with
        | .num q => .ok (kv.1, q)
        | _ => (.error (.pydantic (k ++ ": a valid number is required")) :
                 Except PyError (String × ℚ))
  | some _ => .error (.pydantic (k ++ ": a valid dictionary is required"))

/-- The `ScoredMemory` pydantic model. -/
structure ScoredMemory where
  id : UUID
  summary : Option String
  score : ℚ
  reason : Option String
  breakdown : List (String × ℚ)
  similarity : Option ℚ
deriving Repr

/-- A Python list comprehension building one converted element per input
element, propagating the first raised exception. -/
def mapComprehension {α β : Type} (f : α → Except PyError β) :
    List α → Except PyError (List β)
  | [] => .ok []
  | x :: xs =>
      match f x with
      | .error e => .error e
      | .ok y =>
          match mapComprehension f xs with
          | .error e => .error e
          | .ok ys => .ok (y :: ys)

/-- `ScoredMemory(**item)`: `**` requires a mapping (`TypeError`
otherwise), then pydantic validates the fields; extra keys are ignored. -/
def parseScoredMemory (j : Json) : Except PyError ScoredMemory :=
  match j with
  | .obj kvs =>
      match fieldReqUUID kvs "id" with
      | .error e => .error e
      | .ok id =>
          match fieldOptStr kvs "summary" with
          | .error e => .error e
          | .ok summary =>
              match fieldReqNum kvs "score" with
              | .error e => .error e
              | .ok score =>
                  match fieldOptStr kvs "reason" with
                  | .error e => .error e
                  | .ok reason =>
                      match fieldNumDictD kvs "breakdown" with
                      | .error e => .error e
                      | .ok breakdown =>
                          match fieldOptNum kvs "similarity" with
                          | .error e => .error e
                          | .ok similarity =>
                              .ok ⟨id, summary, score, reason, breakdown,
                                   similarity⟩
  | _ => .error .typeError

/-- The `IdentityContext` pydantic model: all fields optional. -/
structure IdentityContext where
  personality_type : Option String
  communication_style : Option String
  self_reflection : Option (List (String × Json))
  prose : Option String
deriving Repr

/-- `IdentityContext(**identity_data)`. -/
def parseIdentityContext (j : Json) : Except PyError IdentityContext :=
  match j with
  | .obj kvs => do
      let personality_type ← fieldOptStr kvs "personality_type"
      let communication_style ← fieldOptStr kvs "communication_style"
      let self_reflection ← fieldOptObj kvs "self_reflection"
      let prose ← fieldOptStr kvs "prose"
      .ok ⟨personality_type, communication_style, self_reflection, prose⟩
  | _ => .error .typeError

/-- The `MemoryPack` pydantic model: summary counters plus the
semi-structured `content` mapping. -/
structure MemoryPack where
  id : UUID
  anima_id : UUID
  query : Option String
  preset_name : Option String
  session_memory_count : ℤ
  knowledge_count : ℤ
  long_term_memory_count : ℤ
  has_identity : Bool
  token_count : ℤ
  max_tokens : ℤ
  content : List (String × Json)
  compiled_at : String
  created_at : String
deriving Repr

/-- `MemoryPack(**result)`: `**` requires a mapping, then pydantic
validates the fields against their declared types and defaults. -/
def parseMemoryPack (j : Json) : Except PyError MemoryPack :=
  match j with
  | .obj kvs => do
      let id ← fieldReqUUID kvs "id"
      let anima_id ← fieldReqUUID kvs "anima_id"
      let query ← fieldOptStr kvs "query"
      let preset_name ← fieldOptStr kvs "preset_name"
      let session_memory_count ← fieldIntD kvs "session_memory_count" 0
      let knowledge_count ← fieldIntD kvs "knowledge_count" 0
      let long_term_memory_count ← fieldIntD kvs "long_term_memory_count" 0
      let has_identity ← fieldBoolD kvs "has_identity" false
      let token_count ← fieldIntD kvs "token_count" 0
      let max_tokens ← fieldIntD kvs "max_tokens" 4000
      let content ← fieldObjD kvs "content"
      let compiled_at ← fieldReqDatetime kvs "compiled_at"
      let created_at ← fieldReqDatetime kvs "created_at"
      .ok ⟨id, anima_id, query, preset_name, session_memory_count,
           knowledge_count, long_term_memory_count, has_identity,
           token_count, max_tokens, content, compiled_at, created_at⟩
  | _ => .error .typeError

/-- `MemoryPack.as_prompt`: empty `content` gives `""`, otherwise
`content.get("context", "")` (returned as the raw stored value). -/
def MemoryPack.as_prompt (m : MemoryPack) : Json :=
  if m.content.isEmpty then .str ""
  else
    match m.content.lookup "context" with
    | some v => v
    | none => .str ""

/-- `MemoryPack.identity`: `None` for falsy `content`; otherwise
`content.get("identity")`, returning `None` when the value is absent or
falsy, and `IdentityContext(**identity_data)` when it is truthy. -/
def MemoryPack.identity (m : MemoryPack) : Except PyError (Option IdentityContext) :=
  if m.content.isEmpty then .ok none
  else
    match m.content.lookup "identity" with
    | none => .ok none
    | some v =>
        if v.truthy then (parseIdentityContext v).map some
        else .ok none

/-- `MemoryPack.session_memories`: `[]` for falsy `content`; otherwise
iterate `content.get("session_memories", [])` building one
`ScoredMemory(**item)` per element.  Iterating an empty string or empty
dict yields `[]` in Python; every other non-list value fails with a
`TypeError` before or inside the comprehension. -/
def MemoryPack.session_memories (m : MemoryPack) : Except PyError (List ScoredMemory) :=
  if m.content.isEmpty then .ok []
  else
    match (m.content.lookup "session_memories").getD (.arr []) with
    | .arr xs => mapComprehension parseScoredMemory xs
    | .str s => if s.isEmpty then .ok [] else .error .typeError
    | .obj kvs => if kvs.isEmpty then .ok [] else .error .typeError
    | _ => .error .typeError

/-- The `Event` pydantic model.  Its `importance_score` is a plain
optional `float`, with no range constraint (unlike `EventCreate`). -/
structure Event where
  id : UUID
  anima_id : UUID
  event_type : String
  role : Option String
  author : Option String
  summary : Option String
  content : String
  occurred_at : Option String
  session_id : Option String
  meta : List (String × Json)
  source_uri : Option String
  dedupe_key : Option String
  importance_score : Option ℚ
  created_at : String
  updated_at : String
deriving Repr

/-- `Event(**result)`. -/
def parseEvent (j : Json) : Except PyError Event :=
  match j with
  | .obj kvs => do
      let id ← fieldReqUUID kvs "id"
      let anima_id ← fieldReqUUID kvs "anima_id"
      let event_type ← fieldReqStr kvs "event_type"
      let role ← fieldOptStr kvs "role"
      let author ← fieldOptStr kvs "author"
      let summary ← fieldOptStr kvs "summary"
      let content ← fieldReqStr kvs "content"
      let occurred_at ← fieldOptStr kvs "occurred_at"
      let session_id ← fieldOptStr kvs "session_id"
      let meta ← fieldObjD kvs "meta"
      let source_uri ← fieldOptStr kvs "source_uri"
      let dedupe_key ← fieldOptStr kvs "dedupe_key"
      let importance_score ← fieldOptNum kvs "importance_score"
      let created_at ← fieldReqDatetime kvs "created_at"
      let updated_at ← fieldReqDatetime kvs "updated_at"
      .ok ⟨id, anima_id, event_type, role, author, summary, content,
           occurred_at, session_id, meta, source_uri, dedupe_key,
           importance_score, created_at, updated_at⟩
  | _ => .error .typeError

/-- The configuration state of an `Elephantasm` client instance that the
embedded operations read: the default `anima_id` (which, like the Python
attribute, may be `None` or an empty string).  Endpoint, API key and
timeout only feed the external transport and are not consulted by the
embedded logic. -/
structure Client where
  anima_id : Option String
deriving Repr

/-- Python truthiness of an optional string (`if anima_id`, `if not aid`,
`if query`): `None` and `""` are falsy. -/
def optStrTruthy : Option String → Bool
  | none => false
  | some s => !s.data.isEmpty

/-- The GET request `inject` issues: the effective anima id interpolated
into the path, and the query-parameter mapping. -/
structure InjectRequest where
  anima_id : String
  params : List (String × String)
deriving Repr, DecidableEq

/-- The local phase of `Elephantasm.inject`, up to the transport call:
resolve the effective anima id (argument if truthy, else the client
default), raise `ValueError` if the result is falsy, then assemble the
optional `query`/`preset` parameters (falsy values are omitted). -/
def inject_prepare (c : Client) (anima_id query preset : Option String) :
    Except PyError InjectRequest :=
  let aid := if optStrTruthy anima_id then anima_id else c.anima_id
  if !optStrTruthy aid then
    .error (.valueError "anima_id required. Provide parameter or set default in client.")
  else
    let params :=
      (if optStrTruthy query then [("query", query.getD "")] else [])
      ++ (if optStrTruthy preset then [("preset", preset.getD "")] else [])
    .ok ⟨aid.getD "", params⟩

/-- `Elephantasm.inject`: local phase, then the transport exchange, then
`_handle_response`; a `None` result (JSON `null` body) is returned as the
absent value, anything else is decoded as `MemoryPack(**result)`.  The
transport is passed explicitly so that theorems can quantify over the
server behaviour. -/
def inject (c : Client) (anima_id query preset : Option String)
    (transport : InjectRequest → HttpResponse) :
    Except PyError (Option MemoryPack) :=
  match inject_prepare c anima_id query preset with
  | .error e => .error e
  | .ok req =>
      match handle_response (transport req) with
      | .error e => .error e
      | .ok .null => .ok none
      | .ok j => (parseMemoryPack j).map some

/-- The `event_type: str | EventType` argument of `extract`. -/
inductive EventTypeArg where
  | enum : EventType → EventTypeArg
  | str : String → EventTypeArg
deriving Repr, DecidableEq

/-- The local phase of `Elephantasm.extract`, up to the transport call:
resolve the effective anima id (raising `ValueError` when falsy), convert
an `EventType` enum argument to its `.value` — a string argument is used
as is — then build `EventCreate(anima_id=UUID(str(aid)), ...)` (the UUID
parse raising `ValueError`, the model construction running the pydantic
constraints, `meta or \x7b\x7d` defaulting to an empty mapping) and dump
it with `mode="json", exclude_none=True` as the request payload. -/
def extract_prepare (c : Client) (event_type : EventTypeArg) (content : String)
    (anima_id session_id role author occurred_at : Option String)
    (meta : Option (List (String × Json))) (importance_score : Option ℚ) :
    Except PyError (List (String × Json)) :=
  let aid := if optStrTruthy anima_id then anima_id else c.anima_id
  if !optStrTruthy aid then
    .error (.valueError "anima_id required. Provide parameter or set default in client.")
  else
    let event_type_str :=
      match event_type with
      | .enum e => e.value
      | .str s => s
    match parseUUID (aid.getD "") with
    | none => .error (.valueError "badly formed hexadecimal UUID string")
    | some u =>
        match EventCreate.build u event_type_str content role author none
            occurred_at session_id (meta.getD []) none none importance_score with
        | .error e => .error e
        | .ok data => .ok data.model_dump_json

/-- `Elephantasm.extract`: local phase, then POST the payload through the
transport, `_handle_response`, and decode `Event(**result)`. -/
def extract (c : Client) (event_type : EventTypeArg) (content : String)
    (anima_id session_id role author occurred_at : Option String)
    (meta : Option (List (String × Json))) (importance_score : Option ℚ)
    (transport : List (String × Json) → HttpResponse) :
    Except PyError Event :=
  match extract_prepare c event_type content anima_id session_id role author
      occurred_at meta importance_score with
  | .error e => .error e
  | .ok payload =>
      match handle_response (transport payload) with
      | .error e => .error e
      | .ok j => parseEvent j

/-! Observation helpers and concrete fixtures used by the theorems. -/

/-- The `"score"` entry of a JSON object, when it is a number. -/
def jsonScore : Json → Option ℚ
  | .obj kvs =>
      match kvs.lookup "score" with
      | some (.num q) => some q
      | _ => none
  | _ => none

/-- The all-zero UUID in its dashed wire form. -/
def uuidZeroStr : String := "00000000-0000-0000-0000-000000000000"

/-- The all-zero UUID object. -/
def uuidZero : UUID := ⟨"00000000000000000000000000000000"⟩

/-- A client whose default anima id is the all-zero UUID string. -/
def clientWithAid : Client := ⟨some uuidZeroStr⟩

/-- A client with no default anima id configured. -/
def clientNoAid : Client := ⟨none⟩

/-- A session-memory item as it appears inside `MemoryPack.content`. -/
def sampleItem : Json :=
  .obj [("id", .str uuidZeroStr),
        ("summary", .str "User asked about weather"),
        ("score", .num (9/10))]

/-- The `ScoredMemory` that `sampleItem` decodes to. -/
def sampleScored : ScoredMemory :=
  ⟨uuidZero, some "User asked about weather", 9/10, none, [], none⟩

/-- A memory-pack fixture: one session memory scored 0.9, counters
advertising `has_identity = true` while `content` has no `identity`
section. -/
def samplePack : MemoryPack :=
  ⟨uuidZero, uuidZero, none, none, 1, 0, 0, true, 120, 4000,
   [("session_memories", .arr [sampleItem])],
   "2024-01-01T00:00:00Z", "2024-01-01T00:00:00Z"⟩

/-! Section Helper lemmas -/

/-- When the body parses to an object with a string `"detail"` entry,
the extracted detail is that string. -/
theorem responseDetail_of_detail (r : HttpResponse) (kvs : List (String × Json))
    (d : Json) (h1 : r.jsonBody = some (.obj kvs))
    (h2 : kvs.lookup "detail" = some d) : responseDetail r = d := by
  simp [responseDetail, h1, h2]

/-- When the body is not parseable JSON, the extracted detail is the raw
response text. -/
theorem responseDetail_of_unparseable (r : HttpResponse)
    (h : r.jsonBody = none) : responseDetail r = .str r.text := by
  simp [responseDetail, h]

/-! Section C9 — `ServerError` always carries status 500 -/

/-- C9: for every response with status ≥ 500, `_handle_response` raises a
Server-kind error whose `status_code` attribute equals 500, whatever the
observed status was. -/
theorem server_error_status_code_always_500 (r : HttpResponse)
    (h : 500 ≤ r.status) :
    ∃ e, handle_response r = .error (.elephantasm e) ∧ e.kind = .server ∧
      e.status_code = some 500 := by
  have hs : r.is_success = false := by
    simp only [HttpResponse.is_success, Bool.and_eq_false_iff,
      decide_eq_false_iff_not, not_lt]
    right
    omega
  have h401 : (r.status == 401) = false := by simp; omega
  have h404 : (r.status == 404) = false := by simp; omega
  have h422 : (r.status == 422) = false := by simp; omega
  have h429 : (r.status == 429) = false := by simp; omega
  refine ⟨ServerError (responseDetail r), ?_, rfl, rfl⟩
  simp [handle_response, hs, h401, h404, h422, h429, h]

/-- C9 witness: a 502 response raises a Server-kind error with
`status_code = 500`; the observed 502 is not recoverable from it. -/
theorem server_error_status_code_always_500_witness :
    ∃ e, handle_response ⟨502, some (.obj [("detail", .str "Bad Gateway")]), "raw"⟩ =
        .error (.elephantasm e) ∧ e.kind = .server ∧ e.status_code = some 500 :=
  server_error_status_code_always_500
    ⟨502, some (.obj [("detail", .str "Bad Gateway")]), "raw"⟩ (by decide)

/-! Section C5 — complete non-2xx error dispatch -/

/-- C5: every non-2xx response raises (never returns): 401 an
Authentication error, 404 a NotFound error, 422 a Validation error, 429 a
RateLimit error, ≥ 500 a Server error, anything else the base error
carrying the observed status; the message is the `detail` field of a JSON
object body, or the raw response text when the body is not parseable. -/
theorem handle_response_error_taxonomy (r : HttpResponse)
    (h : ¬ (200 ≤ r.status ∧ r.status < 300)) :
    ∃ e, handle_response r = .error (.elephantasm e) ∧
      e.kind = (if r.status = 401 then ErrKind.authentication
                else if r.status = 404 then ErrKind.notFound
                else if r.status = 422 then ErrKind.validation
                else if r.status = 429 then ErrKind.rateLimit
                else if 500 ≤ r.status then ErrKind.server
                else ErrKind.base) ∧
      e.status_code = some (if r.status = 401 then 401
                else if r.status = 404 then 404
                else if r.status = 422 then 422
                else if r.status = 429 then 429
                else if 500 ≤ r.status then 500
                else r.status) ∧
      (∀ kvs d, r.jsonBody = some (.obj kvs) →
          kvs.lookup "detail" = some (.str d) → e.message = .str d) ∧
      (r.jsonBody = none → e.message = .str r.text) := by
  have hs : r.is_success = false := by
    simp only [HttpResponse.is_success, Bool.and_eq_false_iff,
      decide_eq_false_iff_not, not_lt, not_le]
    omega
  by_cases h401 : r.status = 401
  · refine ⟨AuthenticationError (responseDetail r), ?_, ?_, ?_, ?_, ?_⟩
    · simp [handle_response, hs, h401]
    · simp [AuthenticationError, h401]
    · simp [AuthenticationError, h401]
    · intro kvs d h1 h2
      simp [AuthenticationError, responseDetail_of_detail r kvs (.str d) h1 h2]
    · intro h1
      simp [AuthenticationError, responseDetail_of_unparseable r h1]
  by_cases h404 : r.status = 404
  · refine ⟨NotFoundError (responseDetail r), ?_, ?_, ?_, ?_, ?_⟩
    · simp [handle_response, hs, h401, h404]
    · simp [NotFoundError, h401, h404]
    · simp [NotFoundError, h401, h404]
    · intro kvs d h1 h2
      simp [NotFoundError, responseDetail_of_detail r kvs (.str d) h1 h2]
    · intro h1
      simp [NotFoundError, responseDetail_of_unparseable r h1]
  by_cases h422 : r.status = 422
  · refine ⟨ValidationError (.str (responseDetail r).pyStr), ?_, ?_, ?_, ?_, ?_⟩
    · simp [handle_response, hs, h401, h404, h422]
    · simp [ValidationError, h401, h404, h422]
    · simp [ValidationError, h401, h404, h422]
    · intro kvs d h1 h2
      simp [ValidationError, responseDetail_of_detail r kvs (.str d) h1 h2,
        Json.pyStr]
    · intro h1
      simp [ValidationError, responseDetail_of_unparseable r h1, Json.pyStr]
  by_cases h429 : r.status = 429
  · refine ⟨RateLimitError (responseDetail r), ?_, ?_, ?_, ?_, ?_⟩
    · simp [handle_response, hs, h401, h404, h422, h429]
    · simp [RateLimitError, h401, h404, h422, h429]
    · simp [RateLimitError, h401, h404, h422, h429]
    · intro kvs d h1 h2
      simp [RateLimitError, responseDetail_of_detail r kvs (.str d) h1 h2]
    · intro h1
      simp [RateLimitError, responseDetail_of_unparseable r h1]
  by_cases h500 : 500 ≤ r.status
  · refine ⟨ServerError (responseDetail r), ?_, ?_, ?_, ?_, ?_⟩
    · simp [handle_response, hs, h401, h404, h422, h429, h500]
    · simp [ServerError, h401, h404, h422, h429, h500]
    · simp [ServerError, h401, h404, h422, h429, h500]
    · intro kvs d h1 h2
      simp [ServerError, responseDetail_of_detail r kvs (.str d) h1 h2]
    · intro h1
      simp [ServerError, responseDetail_of_unparseable r h1]
  · refine ⟨ElephantasmError (responseDetail r) (some r.status), ?_, ?_, ?_, ?_, ?_⟩
    · simp [handle_response, hs, h401, h404, h422, h429, h500]
    · simp [ElephantasmError, h401, h404, h422, h429, h500]
    · simp [ElephantasmError, h401, h404, h422, h429, h500]
    · intro kvs d h1 h2
      simp [ElephantasmError, responseDetail_of_detail r kvs (.str d) h1 h2]
    · intro h1
      simp [ElephantasmError, responseDetail_of_unparseable r h1]

/-- C5 witness: a 418 response with a string `detail` raises the base
error with the observed status 418 and that detail as its message. -/
theorem handle_response_error_taxonomy_witness :
    ∃ e, handle_response ⟨418, some (.obj [("detail", .str "short and stout")]), "raw"⟩ =
        .error (.elephantasm e) ∧ e.kind = .base ∧
      e.status_code = some 418 ∧ e.message = .str "short and stout" := by
  obtain ⟨e, h1, h2, h3, h4, h5⟩ := handle_response_error_taxonomy
    ⟨418, some (.obj [("detail", .str "short and stout")]), "raw"⟩ (by decide)
  refine ⟨e, h1, ?_, ?_, h4 _ _ rfl rfl⟩
  · simpa using h2
  · simpa using h3

/-! Section C4 — JSON `null` success body means "absent", distinct from 404 -/

/-- When the effective anima id is truthy, the local phase of `inject`
succeeds with the resolved id and the assembled parameters. -/
theorem inject_prepare_ok (c : Client) (anima_id query preset : Option String)
    (h : optStrTruthy (if optStrTruthy anima_id then anima_id else c.anima_id) = true) :
    inject_prepare c anima_id query preset =
      .ok ⟨(if optStrTruthy anima_id then anima_id else c.anima_id).getD "",
           (if optStrTruthy query then [("query", query.getD "")] else [])
           ++ (if optStrTruthy preset then [("preset", preset.getD "")] else [])⟩ := by
  simp [inject_prepare, h]

/-- C4: a 2xx response whose body is the JSON literal `null` makes
`inject` return the absent value — not an error and not an empty object —
while a 404 response raises a NotFound error. -/
theorem inject_null_body_absent_distinct_from_not_found
    (c : Client) (anima_id query preset : Option String) (r : HttpResponse)
    (haid : optStrTruthy (if optStrTruthy anima_id then anima_id else c.anima_id) = true) :
    (200 ≤ r.status → r.status < 300 → r.jsonBody = some .null →
        inject c anima_id query preset (fun _ => r) = .ok none) ∧
    (r.status = 404 →
        ∃ e, inject c anima_id query preset (fun _ => r) =
            .error (.elephantasm e) ∧ e.kind = .notFound ∧
          e.status_code = some 404 ∧ e.message = responseDetail r) := by
  constructor
  · intro hl hh hb
    have hs : r.is_success = true := by
      simp [HttpResponse.is_success]
      omega
    simp [inject, inject_prepare_ok c anima_id query preset haid,
      handle_response, hs, hb]
  · intro h404
    have hs : r.is_success = false := by
      simp only [HttpResponse.is_success, Bool.and_eq_false_iff,
        decide_eq_false_iff_not, not_lt, not_le]
      omega
    refine ⟨NotFoundError (responseDetail r), ?_, rfl, rfl, rfl⟩
    simp [inject, inject_prepare_ok c anima_id query preset haid,
      handle_response, hs, h404]

/-- C4 witness: with a default anima id configured, a 200/`null` exchange
returns the absent value and a 404 exchange raises NotFound with the
`detail` message. -/
theorem inject_null_body_absent_distinct_from_not_found_witness :
    inject clientWithAid none none none (fun _ => ⟨200, some .null, "null"⟩) = .ok none ∧
    (∃ e, inject clientWithAid none none none
        (fun _ => ⟨404, some (.obj [("detail", .str "Anima not found")]), ""⟩) =
          .error (.elephantasm e) ∧ e.kind = .notFound ∧
        e.status_code = some 404 ∧ e.message = .str "Anima not found") :=
  ⟨(inject_null_body_absent_distinct_from_not_found clientWithAid none none none
      ⟨200, some .null, "null"⟩ (by decide)).1 (by decide) (by decide) rfl,
   (inject_null_body_absent_distinct_from_not_found clientWithAid none none none
      ⟨404, some (.obj [("detail", .str "Anima not found")]), ""⟩ (by decide)).2 rfl⟩

/-! Section C6 — missing anima id fails locally, transport never consulted -/

/-- C6: with a falsy anima-id argument and a falsy client default, both
`inject` and `extract` raise the local configuration `ValueError` — for
every transport whatsoever, so the exchange cannot depend on (and the
definition never reaches) the network. -/
theorem missing_anima_id_fails_locally (c : Client)
    (anima_id query preset session_id role author occurred_at : Option String)
    (event_type : EventTypeArg) (content : String)
    (meta : Option (List (String × Json))) (importance_score : Option ℚ)
    (h1 : optStrTruthy anima_id = false) (h2 : optStrTruthy c.anima_id = false) :
    (∀ transport, inject c anima_id query preset transport =
        .error (.valueError "anima_id required. Provide parameter or set default in client.")) ∧
    (∀ transport, extract c event_type content anima_id session_id role author
        occurred_at meta importance_score transport =
        .error (.valueError "anima_id required. Provide parameter or set default in client.")) := by
  constructor
  · intro transport
    simp [inject, inject_prepare, h1, h2]
  · intro transport
    simp [extract, extract_prepare, h1, h2]

/-- C6 witness: `extract(MESSAGE_IN, "Hello!")` and `inject()` against a
client with no default anima id fail with the configuration error even
when the (never-reached) transport would answer 200. -/
theorem missing_anima_id_fails_locally_witness :
    inject clientNoAid none none none (fun _ => ⟨200, some .null, ""⟩) =
      .error (.valueError "anima_id required. Provide parameter or set default in client.") ∧
    extract clientNoAid (.enum .MESSAGE_IN) "Hello!" none none none none none none none
      (fun _ => ⟨200, some .null, ""⟩) =
      .error (.valueError "anima_id required. Provide parameter or set default in client.") :=
  ⟨(missing_anima_id_fails_locally clientNoAid none none none none none none none
      (.enum .MESSAGE_IN) "Hello!" none none rfl rfl).1 _,
   (missing_anima_id_fails_locally clientNoAid none none none none none none none
      (.enum .MESSAGE_IN) "Hello!" none none rfl rfl).2 _⟩

/-! Section C7 — importance score range checked locally, carried unchanged -/

/-- C7: with a usable anima id, an `importance_score` outside `[0, 1]`
makes `extract` fail the pydantic constraint locally — for every
transport, so before any request is issued — while an in-range score is
carried into the event-creation payload unchanged. -/
theorem importance_score_validated_locally (c : Client) (event_type : EventTypeArg)
    (content : String) (anima_id session_id role author occurred_at : Option String)
    (meta : Option (List (String × Json))) (q : ℚ) (u : UUID)
    (haid : optStrTruthy (if optStrTruthy anima_id then anima_id else c.anima_id) = true)
    (huuid : parseUUID ((if optStrTruthy anima_id then anima_id else c.anima_id).getD "") = some u) :
    (¬ (0 ≤ q ∧ q ≤ 1) → ∀ transport,
        extract c event_type content anima_id session_id role author occurred_at
          meta (some q) transport =
          .error (.pydantic "importance_score: input should be in the interval [0, 1]")) ∧
    ((0 ≤ q ∧ q ≤ 1) →
        ∃ payload, extract_prepare c event_type content anima_id session_id role
            author occurred_at meta (some q) = .ok payload ∧
          payload.lookup "importance_score" = some (.num q)) := by
  constructor
  · intro hq transport
    simp [extract, extract_prepare, haid, huuid, EventCreate.build, hq]
  · intro hq
    refine ⟨(EventCreate.mk u
        (match event_type with | .enum e => e.value | .str s => s) content role
        author none occurred_at session_id (meta.getD []) none none
        (some q)).model_dump_json, ?_, ?_⟩
    · simp [extract_prepare, haid, huuid, EventCreate.build, hq]
    · cases role <;> cases author <;> cases occurred_at <;> cases session_id <;>
        simp [EventCreate.model_dump_json, optDump, List.lookup]

/-- C7 witness: score 3/2 fails locally even against a willing transport;
score 4/5 (= 0.8) appears in the payload unchanged. -/
theorem importance_score_validated_locally_witness :
    (extract clientWithAid (.enum .MESSAGE_IN) "Hello!" none none none none none
        none (some (3/2)) (fun _ => ⟨200, some .null, ""⟩) =
      .error (.pydantic "importance_score: input should be in the interval [0, 1]")) ∧
    (∃ payload, extract_prepare clientWithAid (.enum .MESSAGE_IN) "Hello!" none none
        none none none none (some (4/5)) = .ok payload ∧
      payload.lookup "importance_score" = some (.num (4/5))) :=
  ⟨(importance_score_validated_locally clientWithAid (.enum .MESSAGE_IN) "Hello!"
      none none none none none none (3/2) uuidZero (by decide) (by decide)).1
      (by norm_num) _,
   (importance_score_validated_locally clientWithAid (.enum .MESSAGE_IN) "Hello!"
      none none none none none none (4/5) uuidZero (by decide) (by decide)).2
      (by norm_num)⟩

/-! Section C10 — `inject` treats empty-string arguments as absent -/

/-- C10: an empty-string `anima_id` argument behaves exactly like an
absent one (falling back to the client default, or to the configuration
error when there is none), an empty-string `query` or `preset` behaves
exactly like an absent one, and an absent `query`/`preset` never appears
in the request parameters. -/
theorem inject_empty_strings_treated_absent (c : Client)
    (anima_id query preset : Option String) :
    (inject_prepare c (some "") query preset = inject_prepare c none query preset) ∧
    (inject_prepare c anima_id (some "") preset = inject_prepare c anima_id none preset) ∧
    (inject_prepare c anima_id query (some "") = inject_prepare c anima_id query none) ∧
    (∀ req, inject_prepare c anima_id none preset = .ok req →
        req.params.lookup "query" = none) ∧
    (∀ req, inject_prepare c anima_id query none = .ok req →
        req.params.lookup "preset" = none) := by
  refine ⟨?_, ?_, ?_, ?_, ?_⟩
  · simp [inject_prepare, optStrTruthy]
  · simp [inject_prepare, optStrTruthy]
  · simp [inject_prepare, optStrTruthy]
  · intro req h
    by_cases ht : optStrTruthy (if optStrTruthy anima_id then anima_id else c.anima_id) = true
    · rw [inject_prepare_ok c anima_id none preset ht] at h
      injection h with h2
      subst h2
      by_cases hp : optStrTruthy preset = true <;>
        simp [hp, optStrTruthy, List.lookup]
    · have ht2 : optStrTruthy (if optStrTruthy anima_id then anima_id else c.anima_id) = false := by
        revert ht
        cases optStrTruthy (if optStrTruthy anima_id then anima_id else c.anima_id) <;> simp
      simp [inject_prepare, ht2] at h
  · intro req h
    by_cases ht : optStrTruthy (if optStrTruthy anima_id then anima_id else c.anima_id) = true
    · rw [inject_prepare_ok c anima_id query none ht] at h
      injection h with h2
      subst h2
      by_cases hq : optStrTruthy query = true <;>
        simp [hq, optStrTruthy, List.lookup]
    · have ht2 : optStrTruthy (if optStrTruthy anima_id then anima_id else c.anima_id) = false := by
        revert ht
        cases optStrTruthy (if optStrTruthy anima_id then anima_id else c.anima_id) <;> simp
      simp [inject_prepare, ht2] at h

/-- C10 witness: concrete empty-string arguments coincide with absent
ones, and the assembled parameter lists omit the corresponding keys. -/
theorem inject_empty_strings_treated_absent_witness :
    (inject_prepare clientWithAid (some "") (some "q") (some "p") =
        inject_prepare clientWithAid none (some "q") (some "p")) ∧
    (inject_prepare clientWithAid none (some "") (some "p") =
        inject_prepare clientWithAid none none (some "p")) ∧
    (inject_prepare clientWithAid none (some "q") (some "") =
        inject_prepare clientWithAid none (some "q") none) ∧
    ((⟨uuidZeroStr, [("preset", "p")]⟩ : InjectRequest).params.lookup "query" = none) ∧
    ((⟨uuidZeroStr, [("query", "q")]⟩ : InjectRequest).params.lookup "preset" = none) :=
  ⟨(inject_empty_strings_treated_absent clientWithAid none (some "q") (some "p")).1,
   (inject_empty_strings_treated_absent clientWithAid none (some "q") (some "p")).2.1,
   (inject_empty_strings_treated_absent clientWithAid none (some "q") (some "p")).2.2.1,
   (inject_empty_strings_treated_absent clientWithAid none (some "q") (some "p")).2.2.2.1
     ⟨uuidZeroStr, [("preset", "p")]⟩ rfl,
   (inject_empty_strings_treated_absent clientWithAid none (some "q") (some "p")).2.2.2.2
     ⟨uuidZeroStr, [("query", "q")]⟩ rfl⟩

/-! Section C8 — MemoryPack accessors re-check presence, counters advisory -/

/-- A successful comprehension converts element by element: the output
has one entry per input, each the successful conversion of its input. -/
theorem mapComprehension_ok_spec {α β : Type} (f : α → Except PyError β) :
    ∀ (xs : List α) (l : List β), mapComprehension f xs = .ok l →
      l.length = xs.length ∧
      ∀ i (hx : i < xs.length) (hl : i < l.length),
        f (xs.get ⟨i, hx⟩) = .ok (l.get ⟨i, hl⟩) := by
  intro xs
  induction xs with
  | nil =>
      intro l h
      simp only [mapComprehension] at h
      injection h with h2
      subst h2
      exact ⟨rfl, fun i hx _ => absurd hx (Nat.not_lt_zero i)⟩
  | cons x xs ih =>
      intro l h
      simp only [mapComprehension] at h
      cases hfx : f x with
      | error e => rw [hfx] at h; simp at h
      | ok y =>
          rw [hfx] at h
          cases hrest : mapComprehension f xs with
          | error e => rw [hrest] at h; simp at h
          | ok ys =>
              rw [hrest] at h
              injection h with h2
              subst h2
              obtain ⟨hlen, hel⟩ := ih ys hrest
              refine ⟨by simp [hlen], ?_⟩
              intro i hx hl
              cases i with
              | zero => simpa using hfx
              | succ i => exact hel i (by simpa using hx) (by simpa using hl)

/-- Inversion of the required-number field extraction. -/
theorem fieldReqNum_ok (kvs : List (String × Json)) (k : String) (q : ℚ)
    (h : fieldReqNum kvs k = .ok q) : kvs.lookup k = some (.num q) := by
  unfold fieldReqNum at h
  split at h
  · injection h with h2
    subst h2
    assumption
  · simp at h

/-- A successfully decoded `ScoredMemory` preserves the `"score"` entry of
its source object. -/
theorem parseScoredMemory_score (j : Json) (sm : ScoredMemory)
    (h : parseScoredMemory j = .ok sm) : jsonScore j = some sm.score := by
  cases j with
  | obj kvs =>
      simp only [parseScoredMemory] at h
      cases h1 : fieldReqUUID kvs "id" with
      | error e => rw [h1] at h; simp at h
      | ok id =>
          rw [h1] at h
          cases h2 : fieldOptStr kvs "summary" with
          | error e => rw [h2] at h; simp at h
          | ok summary =>
              rw [h2] at h
              cases h3 : fieldReqNum kvs "score" with
              | error e => rw [h3] at h; simp at h
              | ok score =>
                  rw [h3] at h
                  cases h4 : fieldOptStr kvs "reason" with
                  | error e => rw [h4] at h; simp at h
                  | ok reason =>
                      rw [h4] at h
                      cases h5 : fieldNumDictD kvs "breakdown" with
                      | error e => rw [h5] at h; simp at h
                      | ok breakdown =>
                          rw [h5] at h
                          cases h6 : fieldOptNum kvs "similarity" with
                          | error e => rw [h6] at h; simp at h
                          | ok similarity =>
                              rw [h6] at h
                              injection h with h7
                              subst h7
                              simp [jsonScore, fieldReqNum_ok kvs "score" score h3]
  | null => simp [parseScoredMemory] at h
  | bool b => simp [parseScoredMemory] at h
  | num q2 => simp [parseScoredMemory] at h
  | str s => simp [parseScoredMemory] at h
  | arr xs => simp [parseScoredMemory] at h

/-- C8: `session_memories` yields the empty list when the key is absent,
and otherwise one `ScoredMemory` per element of the stored array with its
score preserved; `identity` yields the absent value whenever the
`identity` key is absent — whatever the `has_identity` counter says (the
accessors never consult the counters). -/
theorem memoryPack_accessors_recheck_presence (m : MemoryPack) :
    (m.content.lookup "session_memories" = none → m.session_memories = .ok []) ∧
    (∀ xs l, m.content.lookup "session_memories" = some (.arr xs) →
        m.session_memories = .ok l →
        l.length = xs.length ∧
        ∀ i (hx : i < xs.length) (hl : i < l.length),
          jsonScore (xs.get ⟨i, hx⟩) = some ((l.get ⟨i, hl⟩).score)) ∧
    (m.content.lookup "identity" = none → m.identity = .ok none) := by
  refine ⟨?_, ?_, ?_⟩
  · intro hnone
    by_cases hemp : m.content.isEmpty <;>
      simp [MemoryPack.session_memories, hemp, hnone, mapComprehension]
  · intro xs l hsome hok
    have hemp : m.content.isEmpty = false := by
      cases hc : m.content with
      | nil => rw [hc] at hsome; simp at hsome
      | cons p ps => simp [hc]
    simp only [MemoryPack.session_memories, hemp, hsome, Bool.false_eq_true,
      if_false, Option.getD_some] at hok
    obtain ⟨hlen, hel⟩ := mapComprehension_ok_spec parseScoredMemory xs l hok
    exact ⟨hlen, fun i hx hl => parseScoredMemory_score _ _ (hel i hx hl)⟩
  · intro hnone
    by_cases hemp : m.content.isEmpty <;>
      simp [MemoryPack.identity, hemp, hnone]

/-- C8 witness: the fixture pack with one session memory scored 0.9 and
`has_identity = true` but no `identity` section: `session_memories` gives
exactly that one scored item, and `identity` gives the absent value. -/
theorem memoryPack_accessors_recheck_presence_witness :
    samplePack.session_memories = .ok [sampleScored] ∧
    ([sampleScored].length = [sampleItem].length) ∧
    jsonScore sampleItem = some sampleScored.score ∧
    samplePack.has_identity = true ∧
    samplePack.identity = .ok none := by
  have hses : samplePack.session_memories = .ok [sampleScored] := by rfl
  obtain ⟨h1, h2, h3⟩ := memoryPack_accessors_recheck_presence samplePack
  obtain ⟨hlen, hel⟩ := h2 [sampleItem] [sampleScored] rfl hses
  exact ⟨hses, hlen, hel 0 (by decide) (by decide), rfl, h3 rfl⟩

/-! Section C1, C2, C3 — event-type normalization is absent from the code

The test-suite of the repository (`tests/test_event_type_validation.py`,
`tests/test_client.py::test_extract_invalid_type_raises_locally`) imports
a `_resolve_event_type` helper from `elephantasm/client.py` and asserts a
normalizing/validating behaviour; the shipped `client.py` has no such
helper — `extract` forwards string event types verbatim — and the shipped
`EventCreate` has no `event_type` validator.  The theorems below evaluate
the shipped code at the inputs the claims (and the tests) exercise. -/

/-- C1: evaluating the shipped `extract` at the inputs of the claim: the enum
value and the exact dotted string both produce `"tool.call"`, but the
upper-snake and mixed-case spellings are forwarded verbatim — they are
not normalized to the dotted wire string, contradicting the claim. -/
theorem extract_event_type_not_normalized :
    ((extract_prepare clientWithAid (.str "TOOL_CALL") "hi" none none none none
        none none none).map (fun p => p.lookup "event_type") =
      .ok (some (.str "TOOL_CALL"))) ∧
    ((extract_prepare clientWithAid (.str "Tool_Call") "hi" none none none none
        none none none).map (fun p => p.lookup "event_type") =
      .ok (some (.str "Tool_Call"))) ∧
    ((extract_prepare clientWithAid (.str "tool.call") "hi" none none none none
        none none none).map (fun p => p.lookup "event_type") =
      .ok (some (.str "tool.call"))) ∧
    ((extract_prepare clientWithAid (.enum .TOOL_CALL) "hi" none none none none
        none none none).map (fun p => p.lookup "event_type") =
      .ok (some (.str "tool.call"))) ∧
    "TOOL_CALL" ≠ "tool.call" ∧ "Tool_Call" ≠ "tool.call" :=
  ⟨rfl, rfl, rfl, rfl, by decide, by decide⟩

/-- C2: evaluating the shipped `extract` at `"TOOL_CALL_EXTRA"` and `""`:
no local invalid-event-type error is raised; the offending strings are
placed verbatim in the request payload, and the transport is reached (the
result is determined by the response of the server), contradicting the claim
of a local pre-network failure. -/
theorem extract_unknown_event_type_reaches_transport :
    ((extract_prepare clientWithAid (.str "TOOL_CALL_EXTRA") "hi" none none none
        none none none none).map (fun p => p.lookup "event_type") =
      .ok (some (.str "TOOL_CALL_EXTRA"))) ∧
    ((extract_prepare clientWithAid (.str "") "hi" none none none none none
        none none).map (fun p => p.lookup "event_type") =
      .ok (some (.str ""))) ∧
    (extract clientWithAid (.str "TOOL_CALL_EXTRA") "hi" none none none none
        none none none (fun _ => ⟨503, none, "storm"⟩) =
      .error (.elephantasm (ServerError (.str "storm")))) :=
  ⟨rfl, rfl, rfl⟩

/-- C3: evaluating the shipped `EventCreate` construction at non-canonical
event types: `"TOOL_CALL"` and `"foobar"` are accepted unchanged — there
is no safety-net validator, contradicting the claim that construction
fails for every non-canonical string. -/
theorem eventCreate_accepts_non_canonical_event_type :
    (EventCreate.build uuidZero "TOOL_CALL" "test" none none none none none []
        none none none =
      .ok ⟨uuidZero, "TOOL_CALL", "test", none, none, none, none, none, [],
           none, none, none⟩) ∧
    (EventCreate.build uuidZero "foobar" "test" none none none none none []
        none none none =
      .ok ⟨uuidZero, "foobar", "test", none, none, none, none, none, [],
           none, none, none⟩) ∧
    "TOOL_CALL" ≠ "tool.call" :=
  ⟨rfl, rfl, by decide⟩

end Elephantasm
